import Mathlib

/-!
Shallow embedding of the sensor configuration and control layer
(`py_sensor.c`): the windowing resolver, the orientation auto-correction
controller, the vendor IOCTL multiplexer, and the control facade
(quality rescaling, frame-buffer count setter, frame skipping).

Conventions of the embedding:
* MicroPython objects are modelled by `PyVal`; raised exceptions by
  `Except PyError`.
* Machine `int` arithmetic uses `Int` with `Int.tdiv` for C division
  (truncation toward zero); `uint32_t` clock arithmetic uses `Nat`
  modulo `2 ^ 32`.
* C `float` angle readings are modelled by `Rat`: every comparison in the
  source compares a reading against an integer-valued threshold, which is
  exact, so the branch structure is preserved.
* A driver primitive invocation is made visible in a return component
  (`Option` of the marshalled arguments); the driver itself is an oracle
  parameter supplying its error code and out-parameter values.
-/

/-- MicroPython object values, restricted to the shapes this module handles. -/
inductive PyVal : Type where
  | int (i : Int)
  | bool (b : Bool)
  | float (q : Rat)
  | str (data : List Nat)
  | tuple (xs : List PyVal)
  | image
  | pynone

/-- Raised MicroPython exceptions as this module produces them:
`typeError` for a failed object conversion, `valueError` with its message,
`assertError` for a `PY_ASSERT` failure, and `raisedSensor code` for
`sensor_raise_error(code)`. -/
inductive PyError : Type where
  | typeError
  | valueError (msg : String)
  | assertError (msg : String)
  | raisedSensor (code : Int)
deriving DecidableEq

/-- Modelled from the spec: the sensor error-code enumeration is declared in
`sensor.h`, outside the provided sources; only the distinctness of the codes
is observable here, so they are modelled as distinct integers. -/
def SENSOR_ERROR_INVALID_ARGUMENT : Int := -3

/-- Modelled from the spec: distinct sensor error code, see
`SENSOR_ERROR_INVALID_ARGUMENT`. -/
def SENSOR_ERROR_INVALID_FRAMESIZE : Int := -4

/-- Modelled from the spec: distinct sensor error code for an unknown IOCTL,
the spec's UnsupportedControl. -/
def SENSOR_ERROR_CTL_UNSUPPORTED : Int := -9

/-- Embedding of `mp_obj_get_int`: succeeds on integers (and booleans, which
MicroPython treats as integers), raises a TypeError otherwise. -/
def getInt : PyVal → Except PyError Int
  | .int i => .ok i
  | .bool b => .ok (if b then 1 else 0)
  | _ => .error .typeError

/-- Embedding of `mp_obj_get_array`: succeeds on a tuple or list, raises a
TypeError otherwise. -/
def getArray : PyVal → Except PyError (List PyVal)
  | .tuple xs => .ok xs
  | _ => .error .typeError

/-- Embedding of `mp_obj_str_get_data`: succeeds on a string or bytes object,
returning its bytes, and raises a TypeError otherwise. -/
def getStrData : PyVal → Except PyError (List Nat)
  | .str data => .ok data
  | _ => .error .typeError

/-- Embedding of `mp_obj_get_float` for the measurement-range command:
accepts an integer or a float. -/
def getFloat : PyVal → Except PyError Rat
  | .int i => .ok (i : Rat)
  | .float q => .ok q
  | _ => .error .typeError

/-- The mirror/flip/transpose triple committed to the driver by the
orientation controller (`sensor_set_hmirror` / `sensor_set_vflip` /
`sensor_set_transpose`). -/
structure OrientFlags : Type where
  hmirror : Bool
  vflip : Bool
  transpose : Bool
deriving DecidableEq

/-- Embedding of `do_auto_rotation` (py_sensor.c lines 37-63). The IMU pitch
and roll readings are the `pitch`/`roll` parameters; the result is `some o`
when the three driver orientation setters are invoked with the triple `o`,
and `none` when no driver setter is invoked (auto-rotation disabled, pitch in
a dead zone, or roll in none of the four sectors). -/
def do_auto_rotation (autoRot : Bool) (pitch_deadzone roll_activezone : Int)
    (pitch roll : Rat) : Option OrientFlags :=
  if autoRot then
    if (pitch ≤ ((90 - pitch_deadzone : Int) : Rat) ∨ ((90 + pitch_deadzone : Int) : Rat) < pitch)
        ∧ (pitch ≤ ((270 - pitch_deadzone : Int) : Rat) ∨ ((270 + pitch_deadzone : Int) : Rat) < pitch) then
      if ((360 - roll_activezone : Int) : Rat) ≤ roll ∨ roll < ((0 + roll_activezone : Int) : Rat) then
        some ⟨false, false, false⟩
      else if ((270 - roll_activezone : Int) : Rat) ≤ roll ∧ roll < ((270 + roll_activezone : Int) : Rat) then
        some ⟨true, false, true⟩
      else if ((180 - roll_activezone : Int) : Rat) ≤ roll ∧ roll < ((180 + roll_activezone : Int) : Rat) then
        some ⟨true, true, false⟩
      else if ((90 - roll_activezone : Int) : Rat) ≤ roll ∧ roll < ((90 + roll_activezone : Int) : Rat) then
        some ⟨false, true, true⟩
      else none
    else none
  else none

/-- Embedding of `py_sensor_reset` (lines 77-91): `sensor_reset` is the
oracle error code `resetErr`; on success `do_auto_rotation(10, 45)` runs with
the current IMU readings. The first component is the orientation committed by
the auto-rotation step, `none` when no orientation setter ran. -/
def py_sensor_reset (resetErr : Int) (autoRot : Bool) (pitch roll : Rat) :
    Option OrientFlags × Except PyError PyVal :=
  if resetErr ≠ 0 then (none, .error (.raisedSensor resetErr))
  else (do_auto_rotation autoRot 10 45 pitch roll, .ok .pynone)

/-- Embedding of `py_sensor_snapshot` (lines 111-127): `do_auto_rotation(10, 35)`
runs first with the current IMU readings, then one frame is captured;
`snapErr` is the oracle error code of `sensor.snapshot`. The first component
is the orientation committed by the auto-rotation step. -/
def py_sensor_snapshot (snapErr : Int) (autoRot : Bool) (pitch roll : Rat) :
    Option OrientFlags × Except PyError PyVal :=
  (do_auto_rotation autoRot 10 35 pitch roll,
    if snapErr ≠ 0 then .error (.raisedSensor snapErr) else .ok .image)

/-- Embedding of `py_sensor_set_quality` (lines 392-403): asserts
`0 <= q <= 100`, inverts and rescales `q`, and sends the result to
`sensor_set_quality` (oracle error code `drvErr`). The first component is the
value sent to the driver (`none` when the assertion rejects `q` first); this
setter is in the boolean-returning family, so a driver failure yields `False`
rather than an exception. -/
def py_sensor_set_quality (drvErr : Int) (qs : Int) :
    Option Int × Except PyError PyVal :=
  if ¬(qs ≥ 0 ∧ qs ≤ 100) then (none, .error (.assertError "PY_ASSERT_TRUE"))
  else
    let q1 := 100 - qs
    let q2 := Int.tdiv (255 * q1) 100
    (some q2, .ok (.bool (drvErr == 0)))

/-- Embedding of `py_sensor_set_framebuffers` (lines 538-556): `n_buffers` is
the frame-buffer manager's current count, `drvErr` the oracle error code of
`sensor_set_framebuffers`. The first component is the count delegated to the
driver (`none` when the driver is not called). -/
def py_sensor_set_framebuffers (n_buffers : Int) (drvErr : Int) (c : Int) :
    Option Int × Except PyError PyVal :=
  if n_buffers = c then (none, .ok .pynone)
  else if c < 1 then (none, .error (.raisedSensor SENSOR_ERROR_INVALID_ARGUMENT))
  else (some c, if drvErr ≠ 0 then .error (.raisedSensor drvErr) else .ok .pynone)

/-- Integer rectangle as in `rectangle_t` from imlib. -/
structure Rect : Type where
  x : Int
  y : Int
  w : Int
  h : Int
deriving DecidableEq

/-- Modelled from the spec: `rectangle_overlap` lives in imlib, outside the
provided sources. The spec requires rejecting "a window that does not overlap
the native bounding rectangle at all", so two rectangles overlap when each
one begins strictly before the other ends on both axes. -/
def rectangle_overlap (a b : Rect) : Bool :=
  (a.x < b.x + b.w) && (b.x < a.x + a.w) && (a.y < b.y + b.h) && (b.y < a.y + a.h)

/-- Modelled from the spec: `rectangle_intersected` lives in imlib, outside
the provided sources. The spec requires intersecting the requested rectangle
with the native bounding rectangle, clipping overhanging edges; the result
replaces the first rectangle. -/
def rectangle_intersected (a b : Rect) : Rect :=
  let leftX := max a.x b.x
  let topY := max a.y b.y
  let rightX := min (a.x + a.w) (b.x + b.w)
  let bottomY := min (a.y + a.h) (b.y + b.h)
  ⟨leftX, topY, rightX - leftX, bottomY - topY⟩

/-- Membership of an integer point in a rectangle, used to state the
geometric meaning of overlap and clipping. -/
def inRect (px py : Int) (r : Rect) : Prop :=
  r.x ≤ px ∧ px < r.x + r.w ∧ r.y ≤ py ∧ py < r.y + r.h

instance (px py : Int) (r : Rect) : Decidable (inRect px py r) := by
  unfold inRect; infer_instance

/-- Embedding of the argument-shape analysis of `py_sensor_set_windowing`
(lines 286-300): a 2-element array gives `(w, h)` centered in the native
`W x H` rectangle with C integer division, a 4-element array gives
`(x, y, w, h)` verbatim, anything else raises the shape ValueError. -/
def parseWindowArgs (W H : Int) (array : List PyVal) : Except PyError Rect :=
  match array with
  | [a, b] => do
    let w ← getInt a
    let h ← getInt b
    pure ⟨Int.tdiv W 2 - Int.tdiv w 2, Int.tdiv H 2 - Int.tdiv h 2, w, h⟩
  | [a, b, c, d] => do
    let x ← getInt a
    let y ← getInt b
    let w ← getInt c
    let h ← getInt d
    pure ⟨x, y, w, h⟩
  | _ => .error (.valueError "The tuple/list must either be (x, y, w, h) or (w, h)")

/-- Embedding of the validation and commit stage of `py_sensor_set_windowing`
(lines 302-317), after the requested rectangle `r` has been assembled: reject
degenerate dimensions, reject no overlap with the native `W x H` bounding
rectangle, otherwise clip `r` to the intersection and call the sensor driver
primitive with the clipped rectangle (oracle error code `drvErr`). -/
def windowCommit (W H drvErr : Int) (r : Rect) : Option Rect × Except PyError PyVal :=
  let temp : Rect := ⟨0, 0, W, H⟩
  if r.w < 1 ∨ r.h < 1 then
    (none, .error (.valueError "Invalid ROI dimensions!"))
  else if ¬rectangle_overlap r temp then
    (none, .error (.valueError "ROI does not overlap on the image!"))
  else
    let rc := rectangle_intersected r temp
    (some rc, if drvErr ≠ 0 then .error (.raisedSensor drvErr) else .ok .pynone)

/-- Embedding of `py_sensor_set_windowing` (lines 267-318). `framesizeValid`
models `sensor.framesize != FRAMESIZE_INVALID`; `W`/`H` are the native
resolution of the current frame size (the `resolution` table lives outside
the provided sources, so the dimensions are parameters); `drvErr` is the
oracle error code of `sensor_set_windowing`. A single argument that is a
tuple/list is unpacked, otherwise the positional arguments are the array.
The first component is the rectangle committed to the driver (`none` when
validation fails before the driver call). -/
def py_sensor_set_windowing (framesizeValid : Bool) (W H : Int) (drvErr : Int)
    (args : List PyVal) : Option Rect × Except PyError PyVal :=
  if ¬framesizeValid then
    (none, .error (.raisedSensor SENSOR_ERROR_INVALID_FRAMESIZE))
  else
    let arrayE : Except PyError (List PyVal) :=
      match args with
      | [a] => getArray a
      | _ => .ok args
    match arrayE with
    | .error e => (none, .error e)
    | .ok array =>
      match parseWindowArgs W H array with
      | .error e => (none, .error e)
      | .ok r => windowCommit W H drvErr r

/-- Wraparound-safe elapsed time on a 32-bit millisecond clock, the meaning
of the C expression `(uint32_t)(mp_hal_ticks_ms() - millis)`. -/
def elapsed32 (now start : Nat) : Nat :=
  (now % 2 ^ 32 + 2 ^ 32 - start % 2 ^ 32) % 2 ^ 32

/-- Conversion of a C `mp_int_t` time budget to the `uint32_t` it is compared
against, i.e. reduction modulo `2 ^ 32`. -/
def timeU32 (t : Int) : Nat := (t % (2 ^ 32 : Int)).toNat

/-- Embedding of the counted loop of `py_sensor_skip_frames` (lines 144-152):
`ticks i` is the i-th reading of `mp_hal_ticks_ms` (reading 0 is `millis`,
reading `i + 1` guards iteration `i`); the result is the number of snapshot
captures performed. Each iteration first checks the time bound (only when a
`time` keyword was given) and breaks before capturing when the elapsed time
reaches the budget. -/
def skipFramesLoop (ticks : Nat → Nat) (millis : Nat) (timeGiven : Bool)
    (tU : Nat) : Nat → Nat → Nat
  | _, 0 => 0
  | i, rem + 1 =>
    if timeGiven ∧ tU ≤ elapsed32 (ticks i) millis then 0
    else 1 + skipFramesLoop ticks millis timeGiven tU (i + 1) rem

/-- Embedding of `py_sensor_skip_frames` (lines 129-155) when a positional
frame count is supplied. `timeArg` is the optional `time` keyword (defaulting
to 300 when absent, in which case the per-iteration time check is skipped
because `kw_arg == NULL`). The zero-argument form of the C function is a
pure time-budget while loop with no frame count and is not needed here. -/
def py_sensor_skip_frames (ticks : Nat → Nat) (count : Int)
    (timeArg : Option Int) : Nat :=
  let time : Int := timeArg.getD 300
  let millis := ticks 0 % 2 ^ 32
  skipFramesLoop ticks millis timeArg.isSome (timeU32 time) 1 count.toNat

/-- Modelled from the spec: the IOCTL command enumeration is declared in
`sensor.h`, outside the provided sources; only distinctness of the codes is
observable in the dispatch, so the codes are modelled as distinct integers. -/
def IOCTL_SET_READOUT_WINDOW : Int := 0

/-- Modelled from the spec: distinct IOCTL code, see `IOCTL_SET_READOUT_WINDOW`. -/
def IOCTL_GET_READOUT_WINDOW : Int := 1

/-- Modelled from the spec: distinct IOCTL code. -/
def IOCTL_SET_TRIGGERED_MODE : Int := 2

/-- Modelled from the spec: distinct IOCTL code. -/
def IOCTL_GET_TRIGGERED_MODE : Int := 3

/-- Modelled from the spec: distinct IOCTL code. -/
def IOCTL_TRIGGER_AUTO_FOCUS : Int := 4

/-- Modelled from the spec: distinct IOCTL code. -/
def IOCTL_PAUSE_AUTO_FOCUS : Int := 5

/-- Modelled from the spec: distinct IOCTL code. -/
def IOCTL_RESET_AUTO_FOCUS : Int := 6

/-- Modelled from the spec: distinct IOCTL code. -/
def IOCTL_WAIT_ON_AUTO_FOCUS : Int := 7

/-- Modelled from the spec: distinct IOCTL code. -/
def IOCTL_LEPTON_GET_WIDTH : Int := 8

/-- Modelled from the spec: distinct IOCTL code. -/
def IOCTL_LEPTON_GET_HEIGHT : Int := 9

/-- Modelled from the spec: distinct IOCTL code. -/
def IOCTL_LEPTON_GET_RADIOMETRY : Int := 10

/-- Modelled from the spec: distinct IOCTL code. -/
def IOCTL_LEPTON_GET_REFRESH : Int := 11

/-- Modelled from the spec: distinct IOCTL code. -/
def IOCTL_LEPTON_GET_RESOLUTION : Int := 12

/-- Modelled from the spec: distinct IOCTL code. -/
def IOCTL_LEPTON_RUN_COMMAND : Int := 13

/-- Modelled from the spec: distinct IOCTL code. -/
def IOCTL_LEPTON_SET_ATTRIBUTE : Int := 14

/-- Modelled from the spec: distinct IOCTL code. -/
def IOCTL_LEPTON_GET_ATTRIBUTE : Int := 15

/-- Modelled from the spec: distinct IOCTL code. -/
def IOCTL_LEPTON_GET_FPA_TEMPERATURE : Int := 16

/-- Modelled from the spec: distinct IOCTL code. -/
def IOCTL_LEPTON_GET_AUX_TEMPERATURE : Int := 17

/-- Modelled from the spec: distinct IOCTL code. -/
def IOCTL_LEPTON_SET_MEASUREMENT_MODE : Int := 18

/-- Modelled from the spec: distinct IOCTL code. -/
def IOCTL_LEPTON_GET_MEASUREMENT_MODE : Int := 19

/-- Modelled from the spec: distinct IOCTL code. -/
def IOCTL_LEPTON_SET_MEASUREMENT_RANGE : Int := 20

/-- Modelled from the spec: distinct IOCTL code. -/
def IOCTL_LEPTON_GET_MEASUREMENT_RANGE : Int := 21

/-- Modelled from the spec: distinct IOCTL code. -/
def IOCTL_HIMAX_MD_ENABLE : Int := 22

/-- Modelled from the spec: distinct IOCTL code. -/
def IOCTL_HIMAX_MD_WINDOW : Int := 23

/-- Modelled from the spec: distinct IOCTL code. -/
def IOCTL_HIMAX_MD_THRESHOLD : Int := 24

/-- Modelled from the spec: distinct IOCTL code. -/
def IOCTL_HIMAX_MD_CLEAR : Int := 25

/-- Modelled from the spec: distinct IOCTL code. -/
def IOCTL_HIMAX_OSC_ENABLE : Int := 26

/-- One marshalled argument of a `sensor_ioctl` variadic call: an integer by
value, the address of an integer or float out-parameter, a float passed by
pointer, a caller-supplied 16-bit word buffer with its word count, or a
freshly allocated output buffer of the given word count. -/
inductive IoctlArg : Type where
  | i (v : Int)
  | outp
  | foutp
  | fptr (v : Rat)
  | buf (data : List Nat) (words : Nat)
  | outbuf (words : Nat)
deriving DecidableEq

/-- A `sensor_ioctl` invocation: the request code and the marshalled
argument list, in call order. -/
def DriverCall : Type := Int × List IoctlArg

/-- Oracle outcome of a `sensor_ioctl` invocation: the returned error code
and the values the driver wrote through integer, float and buffer
out-parameters. -/
structure DriverIoctlResult : Type where
  err : Int
  iouts : List Int := []
  fouts : List Rat := []
  bouts : List Nat := []

/-- Embedding of the `(x, y, w, h)` / `(w, h)` array analysis shared by the
`IOCTL_SET_READOUT_WINDOW` and `IOCTL_HIMAX_MD_WINDOW` handlers (lines
644-657 and 841-854): a 4-element array is passed verbatim, a 2-element
array gets origin `x = 0, y = 0`, anything else raises the shape
ValueError. -/
def parseIoctlWindow (array : List PyVal) : Except PyError (Int × Int × Int × Int) :=
  match array with
  | [a, b] => do
    let w ← getInt a
    let h ← getInt b
    pure (0, 0, w, h)
  | [a, b, c, d] => do
    let x ← getInt a
    let y ← getInt b
    let w ← getInt c
    let h ← getInt d
    pure (x, y, w, h)
  | _ => .error (.valueError "The tuple/list must either be (x, y, w, h) or (w, h)")

/-- Result of one IOCTL handler: the driver invocation made, if any, and the
returned object or raised exception. -/
def IoctlOutcome : Type := Option DriverCall × Except PyError PyVal

/-- The shared tail of every handler that makes a driver call and returns
`None` on success (lines 659, 678, 696-700, 752, 763, 774, 795, 813, 829,
856, 863, 869, 875 followed by lines 888-890): a nonzero driver error code
is raised after the switch. -/
def ioctlPlainCall (drv : Int → List IoctlArg → DriverIoctlResult)
    (req : Int) (cargs : List IoctlArg) : IoctlOutcome :=
  let res := drv req cargs
  (some (req, cargs), if res.err ≠ 0 then .error (.raisedSensor res.err) else .ok .pynone)

/-- The shared shape of every scalar query handler (lines 664-674, 705-748,
782-790): the driver is called with one or more out-parameters and on
success the result object is built from what the driver wrote; a nonzero
error code is raised after the switch. -/
def ioctlQueryCall (drv : Int → List IoctlArg → DriverIoctlResult)
    (req : Int) (cargs : List IoctlArg)
    (mk : DriverIoctlResult → PyVal) : IoctlOutcome :=
  let res := drv req cargs
  (some (req, cargs), if res.err = 0 then .ok (mk res) else .error (.raisedSensor res.err))

/-- The no-driver-call outcome of a handler whose arity guard failed: the
local `error` variable keeps its `SENSOR_ERROR_INVALID_ARGUMENT` initial
value (line 634) and is raised after the switch (lines 888-890). -/
def ioctlArityFail : IoctlOutcome :=
  (none, .error (.raisedSensor SENSOR_ERROR_INVALID_ARGUMENT))

/-- Embedding of `py_sensor_ioctl` (lines 630-893). `af` and `hm` model the
`OMV_ENABLE_OV5640_AF` and `OMV_ENABLE_HM01B0` compile-time switches: when a
switch is off its case labels do not exist and the code falls to the default
case. `drv` is the driver oracle; `args` is the positional argument list,
whose first element is the request code. The result records the driver
invocation made, if any, together with the returned object or raised
exception. -/
def py_sensor_ioctl (af hm : Bool) (drv : Int → List IoctlArg → DriverIoctlResult)
    (args : List PyVal) : IoctlOutcome :=
  match getInt (args.getD 0 .pynone) with
  | .error e => (none, .error e)
  | .ok request =>
    if request = IOCTL_SET_READOUT_WINDOW then
      if 2 ≤ args.length then
        match getArray (args.getD 1 .pynone) with
        | .error e => (none, .error e)
        | .ok array =>
          match parseIoctlWindow array with
          | .error e => (none, .error e)
          | .ok (x, y, w, h) =>
            ioctlPlainCall drv request [.i x, .i y, .i w, .i h]
      else ioctlArityFail
    else if request = IOCTL_GET_READOUT_WINDOW then
      ioctlQueryCall drv request [.outp, .outp, .outp, .outp] (fun res =>
        .tuple [.int (res.iouts.getD 0 0), .int (res.iouts.getD 1 0),
                .int (res.iouts.getD 2 0), .int (res.iouts.getD 3 0)])
    else if request = IOCTL_SET_TRIGGERED_MODE then
      if 2 ≤ args.length then
        match getInt (args.getD 1 .pynone) with
        | .error e => (none, .error e)
        | .ok v => ioctlPlainCall drv request [.i v]
      else ioctlArityFail
    else if request = IOCTL_GET_TRIGGERED_MODE then
      ioctlQueryCall drv request [.outp] (fun res =>
        .bool (res.iouts.getD 0 0 != 0))
    else if af ∧ (request = IOCTL_TRIGGER_AUTO_FOCUS ∨ request = IOCTL_PAUSE_AUTO_FOCUS
        ∨ request = IOCTL_RESET_AUTO_FOCUS) then
      ioctlPlainCall drv request []
    else if af ∧ request = IOCTL_WAIT_ON_AUTO_FOCUS then
      if args.length < 2 then ioctlPlainCall drv request [.i 5000]
      else
        match getInt (args.getD 1 .pynone) with
        | .error e => (none, .error e)
        | .ok v => ioctlPlainCall drv request [.i v]
    else if request = IOCTL_LEPTON_GET_WIDTH ∨ request = IOCTL_LEPTON_GET_HEIGHT
        ∨ request = IOCTL_LEPTON_GET_RADIOMETRY ∨ request = IOCTL_LEPTON_GET_REFRESH
        ∨ request = IOCTL_LEPTON_GET_RESOLUTION then
      ioctlQueryCall drv request [.outp] (fun res => .int (res.iouts.getD 0 0))
    else if request = IOCTL_LEPTON_RUN_COMMAND then
      if 2 ≤ args.length then
        match getInt (args.getD 1 .pynone) with
        | .error e => (none, .error e)
        | .ok v => ioctlPlainCall drv request [.i v]
      else ioctlArityFail
    else if request = IOCTL_LEPTON_SET_ATTRIBUTE then
      if 3 ≤ args.length then
        match getInt (args.getD 1 .pynone) with
        | .error e => (none, .error e)
        | .ok command =>
          match getStrData (args.getD 2 .pynone) with
          | .error e => (none, .error e)
          | .ok data =>
            if data.length = 0 then (none, .error (.assertError "0 bytes transferred!"))
            else ioctlPlainCall drv request [.i command, .buf data (data.length / 2)]
      else ioctlArityFail
    else if request = IOCTL_LEPTON_GET_ATTRIBUTE then
      if 3 ≤ args.length then
        match getInt (args.getD 1 .pynone) with
        | .error e => (none, .error e)
        | .ok command =>
          match getInt (args.getD 2 .pynone) with
          | .error e => (none, .error e)
          | .ok lenArg =>
            let data_len : Nat := (lenArg % (2 ^ 32 : Int)).toNat
            if data_len = 0 then (none, .error (.assertError "0 bytes transferred!"))
            else
              ioctlQueryCall drv request [.i command, .outbuf data_len]
                (fun res => .str res.bouts)
      else ioctlArityFail
    else if request = IOCTL_LEPTON_GET_FPA_TEMPERATURE
        ∨ request = IOCTL_LEPTON_GET_AUX_TEMPERATURE then
      ioctlQueryCall drv request [.outp] (fun res =>
        .float (((res.iouts.getD 0 0 : Rat) / 100) - 27315 / 100))
    else if request = IOCTL_LEPTON_SET_MEASUREMENT_MODE then
      if 2 ≤ args.length then
        let highE : Except PyError Int :=
          if args.length = 2 then .ok 0 else getInt (args.getD 2 .pynone)
        match highE with
        | .error e => (none, .error e)
        | .ok high =>
          match getInt (args.getD 1 .pynone) with
          | .error e => (none, .error e)
          | .ok v => ioctlPlainCall drv request [.i v, .i high]
      else ioctlArityFail
    else if request = IOCTL_LEPTON_GET_MEASUREMENT_MODE then
      ioctlQueryCall drv request [.outp, .outp] (fun res =>
        .tuple [.bool (res.iouts.getD 0 0 != 0), .bool (res.iouts.getD 1 0 != 0)])
    else if request = IOCTL_LEPTON_SET_MEASUREMENT_RANGE then
      if 3 ≤ args.length then
        match getFloat (args.getD 1 .pynone) with
        | .error e => (none, .error e)
        | .ok lo =>
          match getFloat (args.getD 2 .pynone) with
          | .error e => (none, .error e)
          | .ok hi => ioctlPlainCall drv request [.fptr lo, .fptr hi]
      else ioctlArityFail
    else if request = IOCTL_LEPTON_GET_MEASUREMENT_RANGE then
      ioctlQueryCall drv request [.foutp, .foutp] (fun res =>
        .tuple [.float (res.fouts.getD 0 0), .float (res.fouts.getD 1 0)])
    else if hm ∧ request = IOCTL_HIMAX_MD_ENABLE then
      if 2 ≤ args.length then
        match getInt (args.getD 1 .pynone) with
        | .error e => (none, .error e)
        | .ok v => ioctlPlainCall drv request [.i v]
      else ioctlArityFail
    else if hm ∧ request = IOCTL_HIMAX_MD_WINDOW then
      if 2 ≤ args.length then
        match getArray (args.getD 1 .pynone) with
        | .error e => (none, .error e)
        | .ok array =>
          match parseIoctlWindow array with
          | .error e => (none, .error e)
          | .ok (x, y, w, h) =>
            ioctlPlainCall drv request [.i x, .i y, .i w, .i h]
      else ioctlArityFail
    else if hm ∧ request = IOCTL_HIMAX_MD_THRESHOLD then
      if 2 ≤ args.length then
        match getInt (args.getD 1 .pynone) with
        | .error e => (none, .error e)
        | .ok v => ioctlPlainCall drv request [.i v]
      else ioctlArityFail
    else if hm ∧ request = IOCTL_HIMAX_MD_CLEAR then
      ioctlPlainCall drv request []
    else if hm ∧ request = IOCTL_HIMAX_OSC_ENABLE then
      if 2 ≤ args.length then
        match getInt (args.getD 1 .pynone) with
        | .error e => (none, .error e)
        | .ok v => ioctlPlainCall drv request [.i v]
      else ioctlArityFail
    else
      (none, .error (.raisedSensor SENSOR_ERROR_CTL_UNSUPPORTED))

/-- The closed set of IOCTL command codes recognized by the multiplexer under
the given compile-time feature switches (the case labels of the dispatch
switch, lines 636-886). -/
def recognizedIoctl (af hm : Bool) : List Int :=
  [IOCTL_SET_READOUT_WINDOW, IOCTL_GET_READOUT_WINDOW,
   IOCTL_SET_TRIGGERED_MODE, IOCTL_GET_TRIGGERED_MODE,
   IOCTL_LEPTON_GET_WIDTH, IOCTL_LEPTON_GET_HEIGHT,
   IOCTL_LEPTON_GET_RADIOMETRY, IOCTL_LEPTON_GET_REFRESH,
   IOCTL_LEPTON_GET_RESOLUTION, IOCTL_LEPTON_RUN_COMMAND,
   IOCTL_LEPTON_SET_ATTRIBUTE, IOCTL_LEPTON_GET_ATTRIBUTE,
   IOCTL_LEPTON_GET_FPA_TEMPERATURE, IOCTL_LEPTON_GET_AUX_TEMPERATURE,
   IOCTL_LEPTON_SET_MEASUREMENT_MODE, IOCTL_LEPTON_GET_MEASUREMENT_MODE,
   IOCTL_LEPTON_SET_MEASUREMENT_RANGE, IOCTL_LEPTON_GET_MEASUREMENT_RANGE]
  ++ (if af then [IOCTL_TRIGGER_AUTO_FOCUS, IOCTL_PAUSE_AUTO_FOCUS,
        IOCTL_RESET_AUTO_FOCUS, IOCTL_WAIT_ON_AUTO_FOCUS] else [])
  ++ (if hm then [IOCTL_HIMAX_MD_ENABLE, IOCTL_HIMAX_MD_WINDOW,
        IOCTL_HIMAX_MD_THRESHOLD, IOCTL_HIMAX_MD_CLEAR,
        IOCTL_HIMAX_OSC_ENABLE] else [])

/-- Claim C4, counterexample: the claim asserts that every pitch inside the
closed dead-zone band `[90 - dz, 90 + dz]`, including both endpoints, causes
no orientation change. At the lower endpoint `pitch = 90 - 10 = 80` with
auto-rotation enabled and `roll = 0`, the controller invokes the three
orientation setters with the upright triple, because the C guard
`pitch <= (90 - pitch_deadzone)` treats the lower endpoint as outside the
dead zone. -/
theorem C4_counterexample :
    do_auto_rotation true 10 45 80 0 = some ⟨false, false, false⟩ := by
  decide

/-- Claim C4, amended: for every pitch reading inside either half-open
dead-zone band `(90 - dz, 90 + dz]` or `(270 - dz, 270 + dz]` — the lower
endpoint excluded, the upper endpoint included — the orientation correction
makes no orientation change regardless of the roll reading: none of the
mirror/flip/transpose driver setters is invoked. -/
theorem C4_amended (autoRot : Bool) (dz az : Int) (pitch roll : Rat)
    (h : (((90 - dz : Int) : Rat) < pitch ∧ pitch ≤ ((90 + dz : Int) : Rat))
       ∨ (((270 - dz : Int) : Rat) < pitch ∧ pitch ≤ ((270 + dz : Int) : Rat))) :
    do_auto_rotation autoRot dz az pitch roll = none := by
  have hng : ¬((pitch ≤ ((90 - dz : Int) : Rat) ∨ ((90 + dz : Int) : Rat) < pitch)
      ∧ (pitch ≤ ((270 - dz : Int) : Rat) ∨ ((270 + dz : Int) : Rat) < pitch)) := by
    rintro ⟨hc1, hc2⟩
    rcases h with ⟨h1, h2⟩ | ⟨h1, h2⟩
    · rcases hc1 with hd | hd <;> linarith
    · rcases hc2 with hd | hd <;> linarith
  cases autoRot
  · simp [do_auto_rotation]
  · rw [do_auto_rotation, if_pos rfl, if_neg hng]

/-- Claim C4 witness: at pitch 85 (inside the 90-centered band for dead-zone
10) no orientation setter is invoked whatever the roll (here 0). -/
theorem C4_amended_witness : do_auto_rotation true 10 45 85 0 = none :=
  C4_amended true 10 45 85 0 (Or.inl ⟨by decide, by decide⟩)

/-- Claim C5: the sensor-reset operation invokes the orientation correction
with pitch dead-zone 10 and roll active-zone 45, while the snapshot
operation invokes it with pitch dead-zone 10 and the narrower active-zone
35; the two widths take effect independently, witnessed by a roll reading
(40 degrees) that the reset-site width corrects and the snapshot-site width
leaves unchanged. -/
theorem C5_call_site_widths :
    (∀ (autoRot : Bool) (pitch roll : Rat),
        (py_sensor_reset 0 autoRot pitch roll).1
          = do_auto_rotation autoRot 10 45 pitch roll)
    ∧ (∀ (snapErr : Int) (autoRot : Bool) (pitch roll : Rat),
        (py_sensor_snapshot snapErr autoRot pitch roll).1
          = do_auto_rotation autoRot 10 35 pitch roll)
    ∧ do_auto_rotation true 10 45 0 40 = some ⟨false, false, false⟩
    ∧ do_auto_rotation true 10 35 0 40 = none := by
  refine ⟨fun _ _ _ => rfl, fun _ _ _ _ => rfl, by decide, by decide⟩

/-- Claim C6: for a caller quality `q` in `[0, 100]` the driver receives
exactly `255 * (100 - q) / 100` under C integer truncation — in particular
100 maps to 0, 0 maps to 255 and 50 maps to 127 — and any `q` outside
`[0, 100]` is rejected by the assertion before the driver is called. -/
theorem C6_quality (drvErr q : Int) :
    (0 ≤ q → q ≤ 100 →
      py_sensor_set_quality drvErr q
        = (some (Int.tdiv (255 * (100 - q)) 100), .ok (.bool (drvErr == 0))))
    ∧ (q < 0 ∨ 100 < q →
      py_sensor_set_quality drvErr q = (none, .error (.assertError "PY_ASSERT_TRUE")))
    ∧ (py_sensor_set_quality drvErr 100).1 = some 0
    ∧ (py_sensor_set_quality drvErr 0).1 = some 255
    ∧ (py_sensor_set_quality drvErr 50).1 = some 127 := by
  refine ⟨fun h1 h2 => ?_, fun h => ?_, rfl, rfl, rfl⟩
  · rw [py_sensor_set_quality, if_neg (by omega)]
  · rw [py_sensor_set_quality, if_pos (by omega)]

/-- Claim C6 witness: the quality setter at `q = 50` with a succeeding
driver sends driver code 127 and returns `True`. -/
theorem C6_quality_witness :
    py_sensor_set_quality 0 50 = (some 127, .ok (.bool true)) := by
  have h := (C6_quality 0 50).1 (by decide) (by decide)
  exact h

/-- Claim C8: if the requested frame-buffer count equals the current count,
the setter returns success immediately and the driver is never called;
otherwise a count below 1 is rejected with InvalidArgument before any driver
call; otherwise the count is delegated to the driver. -/
theorem C8_framebuffers (n_buffers drvErr c : Int) :
    (c = n_buffers → py_sensor_set_framebuffers n_buffers drvErr c = (none, .ok .pynone))
    ∧ (c ≠ n_buffers → c < 1 →
      py_sensor_set_framebuffers n_buffers drvErr c
        = (none, .error (.raisedSensor SENSOR_ERROR_INVALID_ARGUMENT)))
    ∧ (c ≠ n_buffers → 1 ≤ c →
      (py_sensor_set_framebuffers n_buffers drvErr c).1 = some c) := by
  refine ⟨fun h => ?_, fun h hc => ?_, fun h hc => ?_⟩
  · rw [py_sensor_set_framebuffers, if_pos h.symm]
  · rw [py_sensor_set_framebuffers, if_neg (fun hh => h hh.symm), if_pos hc]
  · rw [py_sensor_set_framebuffers, if_neg (fun hh => h hh.symm), if_neg (by omega)]

/-- Claim C8 witness: with current count 2, requesting 2 is a driver-free
no-op and requesting 3 reaches the driver with 3. -/
theorem C8_framebuffers_witness :
    py_sensor_set_framebuffers 2 0 2 = (none, .ok .pynone)
    ∧ (py_sensor_set_framebuffers 2 0 3).1 = some 3 :=
  ⟨(C8_framebuffers 2 0 2).1 (by decide),
   (C8_framebuffers 2 0 3).2.2 (by decide) (by decide)⟩

/-- Claim C3: with auto-rotation enabled and a pitch reading outside both
dead-zone bands, the correction classifies a roll reading in `[0, 360)` into
exactly one of four sectors of half-width `az` — `[360 - az, 360)` together
with `[0, az)` gives upright (no mirror, no flip, no transpose);
`[270 - az, 270 + az)` gives rotated right (mirror and transpose);
`[180 - az, 180 + az)` gives upside down (mirror and flip);
`[90 - az, 90 + az)` gives rotated left (flip and transpose) — and a roll in
none of the four sectors leaves the orientation flags unchanged (no setter
invoked). Mutual exclusion of the sectors holds for half-widths of at most
45 degrees. -/
theorem C3_roll_sectors (dz az : Int) (pitch roll : Rat)
    (hout90 : pitch < 90 - (dz : Rat) ∨ 90 + (dz : Rat) < pitch)
    (hout270 : pitch < 270 - (dz : Rat) ∨ 270 + (dz : Rat) < pitch)
    (hr0 : 0 ≤ roll) (hr360 : roll < 360) (haz : az ≤ 45) :
    ((360 - (az : Rat) ≤ roll ∨ roll < (az : Rat)) →
        do_auto_rotation true dz az pitch roll = some ⟨false, false, false⟩)
    ∧ ((270 - (az : Rat) ≤ roll ∧ roll < 270 + (az : Rat)) →
        do_auto_rotation true dz az pitch roll = some ⟨true, false, true⟩)
    ∧ ((180 - (az : Rat) ≤ roll ∧ roll < 180 + (az : Rat)) →
        do_auto_rotation true dz az pitch roll = some ⟨true, true, false⟩)
    ∧ ((90 - (az : Rat) ≤ roll ∧ roll < 90 + (az : Rat)) →
        do_auto_rotation true dz az pitch roll = some ⟨false, true, true⟩)
    ∧ (¬(360 - (az : Rat) ≤ roll ∨ roll < (az : Rat)) →
       ¬(270 - (az : Rat) ≤ roll ∧ roll < 270 + (az : Rat)) →
       ¬(180 - (az : Rat) ≤ roll ∧ roll < 180 + (az : Rat)) →
       ¬(90 - (az : Rat) ≤ roll ∧ roll < 90 + (az : Rat)) →
        do_auto_rotation true dz az pitch roll = none) := by
  have hazQ : (az : Rat) ≤ 45 := by exact_mod_cast haz
  have hguard : (pitch ≤ ((90 - dz : Int) : Rat) ∨ ((90 + dz : Int) : Rat) < pitch)
      ∧ (pitch ≤ ((270 - dz : Int) : Rat) ∨ ((270 + dz : Int) : Rat) < pitch) := by
    constructor
    · rcases hout90 with hh | hh
      · left; push_cast; linarith
      · right; push_cast; linarith
    · rcases hout270 with hh | hh
      · left; push_cast; linarith
      · right; push_cast; linarith
  have hred : do_auto_rotation true dz az pitch roll =
      (if ((360 - az : Int) : Rat) ≤ roll ∨ roll < ((0 + az : Int) : Rat) then
        some ⟨false, false, false⟩
      else if ((270 - az : Int) : Rat) ≤ roll ∧ roll < ((270 + az : Int) : Rat) then
        some ⟨true, false, true⟩
      else if ((180 - az : Int) : Rat) ≤ roll ∧ roll < ((180 + az : Int) : Rat) then
        some ⟨true, true, false⟩
      else if ((90 - az : Int) : Rat) ≤ roll ∧ roll < ((90 + az : Int) : Rat) then
        some ⟨false, true, true⟩
      else none) := by
    rw [do_auto_rotation, if_pos rfl, if_pos hguard]
  rw [hred]
  refine ⟨fun hs => ?_, fun hs => ?_, fun hs => ?_, fun hs => ?_,
    fun h0 h270 h180 h90 => ?_⟩
  · rw [if_pos]
    rcases hs with hh | hh
    · left; push_cast; linarith
    · right; push_cast; linarith
  · rw [if_neg, if_pos]
    · exact ⟨by push_cast; linarith [hs.1], by push_cast; linarith [hs.2]⟩
    · rintro (hh | hh) <;> push_cast at hh <;> linarith [hs.1, hs.2]
  · rw [if_neg, if_neg, if_pos]
    · exact ⟨by push_cast; linarith [hs.1], by push_cast; linarith [hs.2]⟩
    · rintro ⟨hh1, hh2⟩; push_cast at hh1 hh2; linarith [hs.1, hs.2]
    · rintro (hh | hh) <;> push_cast at hh <;> linarith [hs.1, hs.2]
  · rw [if_neg, if_neg, if_neg, if_pos]
    · exact ⟨by push_cast; linarith [hs.1], by push_cast; linarith [hs.2]⟩
    · rintro ⟨hh1, hh2⟩; push_cast at hh1 hh2; linarith [hs.1, hs.2]
    · rintro ⟨hh1, hh2⟩; push_cast at hh1 hh2; linarith [hs.1, hs.2]
    · rintro (hh | hh) <;> push_cast at hh <;> linarith [hs.1, hs.2]
  · rw [if_neg, if_neg, if_neg, if_neg]
    · rintro ⟨hh1, hh2⟩; push_cast at hh1 hh2; exact h90 ⟨by linarith, by linarith⟩
    · rintro ⟨hh1, hh2⟩; push_cast at hh1 hh2; exact h180 ⟨by linarith, by linarith⟩
    · rintro ⟨hh1, hh2⟩; push_cast at hh1 hh2; exact h270 ⟨by linarith, by linarith⟩
    · rintro (hh | hh) <;> push_cast at hh
      · exact h0 (Or.inl (by linarith))
      · exact h0 (Or.inr (by linarith))

/-- Claim C3 witness: with pitch 0 (outside both dead zones for dead-zone 10)
and active-zone 45, roll 280 lies in the 270-centered sector and commits the
rotated-right triple. -/
theorem C3_roll_sectors_witness :
    do_auto_rotation true 10 45 0 280 = some ⟨true, false, true⟩ :=
  (C3_roll_sectors 10 45 0 280 (Or.inl (by norm_num)) (Or.inl (by norm_num))
    (by norm_num) (by norm_num) (by norm_num)).2.1 ⟨by norm_num, by norm_num⟩

/-- The boolean overlap test agrees with nonemptiness of the geometric
intersection with the native bounding rectangle, for rectangles of positive
dimensions. -/
theorem overlap_iff_exists (r : Rect) (W H : Int)
    (hw : 1 ≤ r.w) (hh : 1 ≤ r.h) (hW : 1 ≤ W) (hH : 1 ≤ H) :
    rectangle_overlap r ⟨0, 0, W, H⟩ = true
      ↔ ∃ px py, inRect px py r ∧ inRect px py ⟨0, 0, W, H⟩ := by
  simp only [rectangle_overlap, inRect, Bool.and_eq_true, decide_eq_true_eq]
  constructor
  · rintro ⟨⟨⟨h1, h2⟩, h3⟩, h4⟩
    refine ⟨max r.x 0, max r.y 0, ?_⟩
    omega
  · rintro ⟨px, py, hA, hB⟩
    omega

/-- Claim C1, counterexample: the claim asserts that a valid 2-tuple request
is committed at origin `x = (W - w) / 2`. With native bounds 4 x 4 and the
request `(w, h) = (1, 1)`, the code commits origin `(2, 2)` (computed as
`W/2 - w/2 = 2 - 0`), while `(W - w) / 2 = 3 / 2 = 1`. -/
theorem C1_counterexample :
    (py_sensor_set_windowing true 4 4 0 [PyVal.tuple [PyVal.int 1, PyVal.int 1]]).1
        = some ⟨2, 2, 1, 1⟩
    ∧ Int.tdiv (4 - 1) 2 = 1 := by
  exact ⟨rfl, rfl⟩

/-- Claim C1, amended: for every 2-tuple window request `(w, h)` with
`1 <= w <= W` and `1 <= h <= H`, `set_windowing` commits a centered rectangle
whose origin is `x = W/2 - w/2` and `y = H/2 - h/2` under C integer division
(each half computed separately, which differs from `(W - w)/2` exactly when
`W` is even and `w` odd); the committed rectangle is the requested one, the
clipping step being the identity here. -/
theorem C1_amended (W H w h drvErr : Int)
    (hw1 : 1 ≤ w) (hwW : w ≤ W) (hh1 : 1 ≤ h) (hhH : h ≤ H) :
    py_sensor_set_windowing true W H drvErr [PyVal.tuple [PyVal.int w, PyVal.int h]]
      = (some ⟨Int.tdiv W 2 - Int.tdiv w 2, Int.tdiv H 2 - Int.tdiv h 2, w, h⟩,
        if drvErr ≠ 0 then .error (.raisedSensor drvErr) else .ok .pynone) := by
  have hred : py_sensor_set_windowing true W H drvErr
        [PyVal.tuple [PyVal.int w, PyVal.int h]]
      = windowCommit W H drvErr
          ⟨Int.tdiv W 2 - Int.tdiv w 2, Int.tdiv H 2 - Int.tdiv h 2, w, h⟩ := rfl
  have eW : Int.tdiv W 2 = W / 2 := Int.tdiv_eq_ediv (by omega) (by omega)
  have ew : Int.tdiv w 2 = w / 2 := Int.tdiv_eq_ediv (by omega) (by omega)
  have eH : Int.tdiv H 2 = H / 2 := Int.tdiv_eq_ediv (by omega) (by omega)
  have eh : Int.tdiv h 2 = h / 2 := Int.tdiv_eq_ediv (by omega) (by omega)
  rw [hred, eW, ew, eH, eh]
  have hov : rectangle_overlap ⟨W / 2 - w / 2, H / 2 - h / 2, w, h⟩ ⟨0, 0, W, H⟩
      = true := by
    simp only [rectangle_overlap, Bool.and_eq_true, decide_eq_true_eq]
    omega
  have hint : rectangle_intersected ⟨W / 2 - w / 2, H / 2 - h / 2, w, h⟩ ⟨0, 0, W, H⟩
      = ⟨W / 2 - w / 2, H / 2 - h / 2, w, h⟩ := by
    simp only [rectangle_intersected, Rect.mk.injEq]
    omega
  simp only [windowCommit]
  rw [if_neg (show ¬(w < 1 ∨ h < 1) by omega), if_neg (not_not_intro hov), hint]

/-- Claim C1 witness: with native bounds 4 x 4 and request `(1, 1)`, the
committed rectangle is `(2, 2, 1, 1)` and the driver call succeeds. -/
theorem C1_amended_witness :
    py_sensor_set_windowing true 4 4 0 [PyVal.tuple [PyVal.int 1, PyVal.int 1]]
      = (some ⟨2, 2, 1, 1⟩, .ok .pynone) := by
  have hthm := C1_amended 4 4 1 1 0 (by decide) (by decide) (by decide) (by decide)
  exact hthm

/-- Claim C2: for every 4-tuple window request `(x, y, w, h)` with positive
dimensions against native bounds `W x H`: if the requested rectangle shares
no point with the native bounding rectangle, `set_windowing` raises the
does-not-overlap ValueError and the driver is not called; if some point is
shared, the driver is called with exactly the clipped rectangle, whose point
set is precisely the intersection of the request with the native bounds. -/
theorem C2_clip_or_reject (W H drvErr x y w h : Int)
    (hW : 1 ≤ W) (hH : 1 ≤ H) (hw : 1 ≤ w) (hh : 1 ≤ h) :
    (¬(∃ px py, inRect px py ⟨x, y, w, h⟩ ∧ inRect px py ⟨0, 0, W, H⟩) →
      py_sensor_set_windowing true W H drvErr
          [PyVal.tuple [PyVal.int x, PyVal.int y, PyVal.int w, PyVal.int h]]
        = (none, .error (.valueError "ROI does not overlap on the image!")))
    ∧ ((∃ px py, inRect px py ⟨x, y, w, h⟩ ∧ inRect px py ⟨0, 0, W, H⟩) →
      (py_sensor_set_windowing true W H drvErr
          [PyVal.tuple [PyVal.int x, PyVal.int y, PyVal.int w, PyVal.int h]]).1
        = some (rectangle_intersected ⟨x, y, w, h⟩ ⟨0, 0, W, H⟩)
      ∧ ∀ px py, inRect px py (rectangle_intersected ⟨x, y, w, h⟩ ⟨0, 0, W, H⟩)
          ↔ inRect px py ⟨x, y, w, h⟩ ∧ inRect px py ⟨0, 0, W, H⟩) := by
  have hred : py_sensor_set_windowing true W H drvErr
        [PyVal.tuple [PyVal.int x, PyVal.int y, PyVal.int w, PyVal.int h]]
      = windowCommit W H drvErr ⟨x, y, w, h⟩ := rfl
  have hiff := overlap_iff_exists ⟨x, y, w, h⟩ W H hw hh hW hH
  constructor
  · intro hno
    rw [hred]
    simp only [windowCommit]
    rw [if_neg (show ¬(w < 1 ∨ h < 1) by omega),
      if_pos (show ¬(rectangle_overlap ⟨x, y, w, h⟩ ⟨0, 0, W, H⟩ = true) from
        fun hc => hno (hiff.mp hc))]
  · intro hex
    constructor
    · rw [hred]
      simp only [windowCommit]
      rw [if_neg (show ¬(w < 1 ∨ h < 1) by omega),
        if_neg (not_not_intro (hiff.mpr hex))]
    · intro px py
      simp only [rectangle_intersected, inRect]
      omega

/-- Claim C2 witness: against native bounds 4 x 4, the request
`(-2, -2, 3, 3)` partially overlaps (the point `(0, 0)` is shared) and the
driver receives the clipped rectangle `(0, 0, 1, 1)`, while the request
`(10, 10, 3, 3)` shares no point and is rejected before any driver call. -/
theorem C2_clip_or_reject_witness :
    (py_sensor_set_windowing true 4 4 0
        [PyVal.tuple [PyVal.int (-2), PyVal.int (-2), PyVal.int 3, PyVal.int 3]]).1
      = some ⟨0, 0, 1, 1⟩
    ∧ py_sensor_set_windowing true 4 4 0
        [PyVal.tuple [PyVal.int 10, PyVal.int 10, PyVal.int 3, PyVal.int 3]]
      = (none, .error (.valueError "ROI does not overlap on the image!")) := by
  constructor
  · have hthm := (C2_clip_or_reject 4 4 0 (-2) (-2) 3 3 (by decide) (by decide)
      (by decide) (by decide)).2 ⟨0, 0, by decide, by decide⟩
    exact hthm.1.trans (by decide)
  · have hthm := (C2_clip_or_reject 4 4 0 10 10 3 3 (by decide) (by decide)
      (by decide) (by decide)).1
    refine hthm ?_
    rintro ⟨px, py, hA, hB⟩
    simp only [inRect] at hA hB
    omega

/-- Claim C7: for every integer command code outside the closed set of
recognized IOCTL commands (under any combination of the compile-time feature
switches) and for every argument list, the multiplexer raises
UnsupportedControl and the sensor driver ioctl primitive is never invoked. -/
theorem C7_unsupported_ioctl (af hm : Bool)
    (drv : Int → List IoctlArg → DriverIoctlResult)
    (request : Int) (rest : List PyVal)
    (hreq : request ∉ recognizedIoctl af hm) :
    py_sensor_ioctl af hm drv (PyVal.int request :: rest)
      = (none, .error (.raisedSensor SENSOR_ERROR_CTL_UNSUPPORTED)) := by
  cases af <;> cases hm <;>
  · simp only [recognizedIoctl,
      IOCTL_SET_READOUT_WINDOW, IOCTL_GET_READOUT_WINDOW,
      IOCTL_SET_TRIGGERED_MODE, IOCTL_GET_TRIGGERED_MODE,
      IOCTL_TRIGGER_AUTO_FOCUS, IOCTL_PAUSE_AUTO_FOCUS,
      IOCTL_RESET_AUTO_FOCUS, IOCTL_WAIT_ON_AUTO_FOCUS,
      IOCTL_LEPTON_GET_WIDTH, IOCTL_LEPTON_GET_HEIGHT,
      IOCTL_LEPTON_GET_RADIOMETRY, IOCTL_LEPTON_GET_REFRESH,
      IOCTL_LEPTON_GET_RESOLUTION, IOCTL_LEPTON_RUN_COMMAND,
      IOCTL_LEPTON_SET_ATTRIBUTE, IOCTL_LEPTON_GET_ATTRIBUTE,
      IOCTL_LEPTON_GET_FPA_TEMPERATURE, IOCTL_LEPTON_GET_AUX_TEMPERATURE,
      IOCTL_LEPTON_SET_MEASUREMENT_MODE, IOCTL_LEPTON_GET_MEASUREMENT_MODE,
      IOCTL_LEPTON_SET_MEASUREMENT_RANGE, IOCTL_LEPTON_GET_MEASUREMENT_RANGE,
      IOCTL_HIMAX_MD_ENABLE, IOCTL_HIMAX_MD_WINDOW,
      IOCTL_HIMAX_MD_THRESHOLD, IOCTL_HIMAX_MD_CLEAR,
      IOCTL_HIMAX_OSC_ENABLE,
      List.mem_append, List.mem_cons, List.not_mem_nil, not_or,
      if_true, if_false, or_false] at hreq
    simp [py_sensor_ioctl, getInt,
      IOCTL_SET_READOUT_WINDOW, IOCTL_GET_READOUT_WINDOW,
      IOCTL_SET_TRIGGERED_MODE, IOCTL_GET_TRIGGERED_MODE,
      IOCTL_TRIGGER_AUTO_FOCUS, IOCTL_PAUSE_AUTO_FOCUS,
      IOCTL_RESET_AUTO_FOCUS, IOCTL_WAIT_ON_AUTO_FOCUS,
      IOCTL_LEPTON_GET_WIDTH, IOCTL_LEPTON_GET_HEIGHT,
      IOCTL_LEPTON_GET_RADIOMETRY, IOCTL_LEPTON_GET_REFRESH,
      IOCTL_LEPTON_GET_RESOLUTION, IOCTL_LEPTON_RUN_COMMAND,
      IOCTL_LEPTON_SET_ATTRIBUTE, IOCTL_LEPTON_GET_ATTRIBUTE,
      IOCTL_LEPTON_GET_FPA_TEMPERATURE, IOCTL_LEPTON_GET_AUX_TEMPERATURE,
      IOCTL_LEPTON_SET_MEASUREMENT_MODE, IOCTL_LEPTON_GET_MEASUREMENT_MODE,
      IOCTL_LEPTON_SET_MEASUREMENT_RANGE, IOCTL_LEPTON_GET_MEASUREMENT_RANGE,
      IOCTL_HIMAX_MD_ENABLE, IOCTL_HIMAX_MD_WINDOW,
      IOCTL_HIMAX_MD_THRESHOLD, IOCTL_HIMAX_MD_CLEAR,
      IOCTL_HIMAX_OSC_ENABLE, hreq]

/-- Claim C7 witness: command code 99 is not recognized under any feature
switches and is rejected with UnsupportedControl without a driver call. -/
theorem C7_unsupported_ioctl_witness :
    py_sensor_ioctl true true (fun _ _ => ⟨0, [], [], []⟩) [PyVal.int 99]
      = (none, .error (.raisedSensor SENSOR_ERROR_CTL_UNSUPPORTED)) :=
  C7_unsupported_ioctl true true (fun _ _ => ⟨0, [], [], []⟩) 99 [] (by decide)

/-- Claim C10: a 2-tuple `(w, h)` given to the IOCTL set-readout-window
command is passed to the driver with origin `x = 0, y = 0`, unclipped and
independent of any native bounds, for every `w` and `h` — unlike the
2-tuple handling of `set_windowing`, which centers the request in the native
bounds (e.g. `(2, 2)` in an 8 x 8 native frame is committed at `(3, 3)`). -/
theorem C10_readout_window_origin (af hm : Bool)
    (drv : Int → List IoctlArg → DriverIoctlResult) (w h : Int) :
    (py_sensor_ioctl af hm drv
        [PyVal.int IOCTL_SET_READOUT_WINDOW, PyVal.tuple [PyVal.int w, PyVal.int h]]).1
      = some (IOCTL_SET_READOUT_WINDOW, [.i 0, .i 0, .i w, .i h])
    ∧ (py_sensor_set_windowing true 8 8 0 [PyVal.tuple [PyVal.int 2, PyVal.int 2]]).1
      = some ⟨3, 3, 2, 2⟩ := by
  exact ⟨rfl, rfl⟩

/-- When no per-iteration time check trips, the counted skip loop performs
every remaining iteration. -/
theorem skipFramesLoop_run (ticks : Nat → Nat) (millis tU : Nat) :
    ∀ (rem i : Nat), (∀ j, j < rem → elapsed32 (ticks (i + j)) millis < tU) →
      skipFramesLoop ticks millis true tU i rem = rem := by
  intro rem
  induction rem with
  | zero => intro i _; rfl
  | succ r ih =>
    intro i hj
    have hstep : skipFramesLoop ticks millis true tU i (r + 1)
        = 1 + skipFramesLoop ticks millis true tU (i + 1) r := by
      simp only [skipFramesLoop]
      rw [if_neg]
      rintro ⟨_, hc⟩
      have h0 := hj 0 (by omega)
      simp only [Nat.add_zero] at h0
      omega
    rw [hstep, ih (i + 1) (fun j hjr => by
      have hx := hj (j + 1) (by omega)
      have he : i + (j + 1) = i + 1 + j := by omega
      rw [he] at hx
      exact hx)]
    omega

/-- The counted skip loop never exceeds the remaining count, stops exactly at
a tripping time check, and every performed iteration passed its time check. -/
theorem skipFramesLoop_spec (ticks : Nat → Nat) (millis tU : Nat) :
    ∀ (rem i : Nat),
      skipFramesLoop ticks millis true tU i rem ≤ rem
      ∧ (skipFramesLoop ticks millis true tU i rem < rem →
          tU ≤ elapsed32 (ticks (i + skipFramesLoop ticks millis true tU i rem)) millis)
      ∧ ∀ j, j < skipFramesLoop ticks millis true tU i rem →
          elapsed32 (ticks (i + j)) millis < tU := by
  intro rem
  induction rem with
  | zero =>
    intro i
    have h0 : skipFramesLoop ticks millis true tU i 0 = 0 := rfl
    refine ⟨by rw [h0], fun hc => ?_, fun j hj => ?_⟩
    · rw [h0] at hc
      exact absurd hc (by omega)
    · rw [h0] at hj
      exact absurd hj (by omega)
  | succ r ih =>
    intro i
    by_cases hc : tU ≤ elapsed32 (ticks i) millis
    · have hL : skipFramesLoop ticks millis true tU i (r + 1) = 0 := by
        simp only [skipFramesLoop]
        rw [if_pos ⟨trivial, hc⟩]
      refine ⟨by omega, fun _ => ?_, fun j hj => ?_⟩
      · rw [hL]
        simpa using hc
      · rw [hL] at hj
        exact absurd hj (by omega)
    · have hstep : skipFramesLoop ticks millis true tU i (r + 1)
          = 1 + skipFramesLoop ticks millis true tU (i + 1) r := by
        simp only [skipFramesLoop]
        rw [if_neg (fun hA => hc hA.2)]
      obtain ⟨ih1, ih2, ih3⟩ := ih (i + 1)
      refine ⟨by rw [hstep]; omega, ?_, ?_⟩
      · rw [hstep]
        intro hlt
        have hx := ih2 (by omega)
        have he : i + (1 + skipFramesLoop ticks millis true tU (i + 1) r)
            = i + 1 + skipFramesLoop ticks millis true tU (i + 1) r := by omega
        rw [he]
        exact hx
      · rw [hstep]
        intro j hj
        cases j with
        | zero =>
          simpa using Nat.lt_of_not_le hc
        | succ k =>
          have hx := ih3 k (by omega)
          have he : i + (k + 1) = i + 1 + k := by omega
          rw [he]
          exact hx

/-- Claim C9: for the skip-frames bulk operation with a positional count,
(1) with count 5 and a time budget large enough that no per-iteration check
trips, exactly 5 captures are performed; (2) with any count and a time budget
of 0, at most one capture is performed (in fact the first check trips before
any capture); (3) with both bounds, the loop performs at most `count`
captures, every performed iteration passed its once-per-iteration
wraparound-safe elapsed-time check, and if it stopped short of the count the
check at the stopping iteration had tripped. -/
theorem C9_skip_frames :
    (∀ (ticks : Nat → Nat) (t : Int),
      (∀ i, i < 6 → 1 ≤ i → elapsed32 (ticks i) (ticks 0 % 2 ^ 32) < timeU32 t) →
      py_sensor_skip_frames ticks 5 (some t) = 5)
    ∧ (∀ (ticks : Nat → Nat) (count : Int),
        py_sensor_skip_frames ticks count (some 0) ≤ 1)
    ∧ ∀ (ticks : Nat → Nat) (count t : Int),
        py_sensor_skip_frames ticks count (some t) ≤ count.toNat
        ∧ (py_sensor_skip_frames ticks count (some t) < count.toNat →
            timeU32 t ≤ elapsed32
              (ticks (py_sensor_skip_frames ticks count (some t) + 1))
              (ticks 0 % 2 ^ 32))
        ∧ ∀ j, j < py_sensor_skip_frames ticks count (some t) →
            elapsed32 (ticks (j + 1)) (ticks 0 % 2 ^ 32) < timeU32 t := by
  refine ⟨fun ticks t hbudget => ?_, fun ticks count => ?_,
    fun ticks count t => ?_⟩
  · exact skipFramesLoop_run ticks (ticks 0 % 2 ^ 32) (timeU32 t) 5 1
      (fun j hj => hbudget (1 + j) (by omega) (by omega))
  · have ht : timeU32 0 = 0 := rfl
    have hgen : ∀ n, skipFramesLoop ticks (ticks 0 % 2 ^ 32) true 0 1 n ≤ 1 := by
      intro n
      cases n with
      | zero => simp [skipFramesLoop]
      | succ m => simp [skipFramesLoop]
    show skipFramesLoop ticks (ticks 0 % 2 ^ 32) true (timeU32 0) 1 count.toNat ≤ 1
    rw [ht]
    exact hgen count.toNat
  · obtain ⟨h1, h2, h3⟩ :=
      skipFramesLoop_spec ticks (ticks 0 % 2 ^ 32) (timeU32 t) count.toNat 1
    refine ⟨h1, fun hlt => ?_, fun j hj => ?_⟩
    · have hx := h2 hlt
      rw [Nat.add_comm 1 _] at hx
      exact hx
    · have hx := h3 j hj
      rw [Nat.add_comm 1 j] at hx
      exact hx

/-- Claim C9 witness: on a clock advancing 10 ms per reading, count 5 with
the default 300 ms budget performs exactly 5 captures, and a 0 ms budget with
count 1000000 performs no capture. -/
theorem C9_skip_frames_witness :
    py_sensor_skip_frames (fun i => 10 * i) 5 (some 300) = 5
    ∧ py_sensor_skip_frames (fun i => 10 * i) 1000000 (some 0) ≤ 1 :=
  ⟨C9_skip_frames.1 (fun i => 10 * i) 300 (by decide),
   C9_skip_frames.2.1 (fun i => 10 * i) 1000000⟩
